import Mathlib

set_option linter.unusedVariables false

/-!
# Slot-Swap: shallow embedding of the swap-state machine

This file embeds the mutation handlers of the Slot-Swap application and the
database schema they write through, and proves the specified properties of
the event-status state machine and the swap-request lifecycle.

Embedded code:
* `handleCreateEvent`, `toggleSwappable`, `deleteEvent` — Dashboard page
* `requestSwap` (Propose) — `src/pages/Marketplace.tsx`
* `handleAcceptSwap`, `handleRejectSwap` — `src/pages/Requests.tsx`
* relations `events` and `swap_requests` with their foreign keys
  (`ON DELETE CASCADE`) — the SQL migration

Statuses are strings, exactly as in the TEXT columns and the string literals
of the handlers.  Each network write of a handler can independently succeed
or fail; a Boolean per write models that outcome, mirroring the
`if (error) ...` checks in the handlers.  A failed write leaves the store
unchanged; the handler may or may not keep issuing the following writes,
exactly as the control flow of the source dictates.
-/

namespace SlotSwap

/-- A row of the `events` relation: id, owning user, title, start/end time
(ISO strings, as `datetime-local` inputs produce), status. -/
structure EventRow where
  id : String
  user_id : String
  title : String
  start_time : String
  end_time : String
  status : String
  deriving Repr, DecidableEq

/-- A row of the `swap_requests` relation. -/
structure SwapRequestRow where
  id : String
  requester_id : String
  requester_event_id : String
  recipient_id : String
  recipient_event_id : String
  status : String
  deriving Repr, DecidableEq

/-- The persistent store: the two relations the swap logic touches. -/
structure DBState where
  events : List EventRow
  swap_requests : List SwapRequestRow
  deriving Repr, DecidableEq

/-- The empty database. -/
def DBState.init : DBState := ⟨[], []⟩

/-- `UPDATE events SET status = s WHERE id IN ids`. -/
def updateEventsStatusIn (db : DBState) (ids : List String) (s : String) : DBState :=
  { db with events :=
      db.events.map fun e => if e.id ∈ ids then { e with status := s } else e }

/-- `UPDATE events SET user_id = u, status = s WHERE id = eid`
(the per-event write of `handleAcceptSwap`). -/
def updateEventOwnerStatus (db : DBState) (eid u s : String) : DBState :=
  { db with events :=
      db.events.map fun e => if e.id = eid then { e with user_id := u, status := s } else e }

/-- `UPDATE swap_requests SET status = s WHERE id = rid`. -/
def updateRequestStatus (db : DBState) (rid s : String) : DBState :=
  { db with swap_requests :=
      db.swap_requests.map fun r => if r.id = rid then { r with status := s } else r }

/-- Look an event up by id. -/
def findEvent (db : DBState) (eid : String) : Option EventRow :=
  db.events.find? fun e => e.id = eid

/-- Does an event with this id exist?  (The foreign keys of `swap_requests`
check this on insert.) -/
def eventExists (db : DBState) (eid : String) : Bool :=
  db.events.any fun e => e.id = eid

/-- `handleCreateEvent` (Dashboard): inserts a new event with status
`'BUSY'`; no check relates `start_time` and `end_time`.  `ok` is the
outcome of the insert; on failure nothing is stored.  Returns the new
store and whether the operation succeeded. -/
def handleCreateEvent (db : DBState) (userId title startTime endTime newId : String)
    (ok : Bool) : DBState × Bool :=
  if ok then
    ({ db with events := db.events ++
        [{ id := newId, user_id := userId, title := title,
           start_time := startTime, end_time := endTime, status := "BUSY" }] }, true)
  else (db, false)

/-- `toggleSwappable` (Dashboard): refuses when the current status is
`'SWAP_PENDING'` (toast error, early return); otherwise writes
`'SWAPPABLE'` if the current status is `'BUSY'` and `'BUSY'` otherwise.
`currentStatus` is a parameter, as in the source; the call site passes the
event's displayed status.  `ok` is the outcome of the update. -/
def toggleSwappable (db : DBState) (eventId currentStatus : String) (ok : Bool) :
    DBState × Bool :=
  if currentStatus = "SWAP_PENDING" then (db, false)
  else
    let newStatus := if currentStatus = "BUSY" then "SWAPPABLE" else "BUSY"
    if ok then (updateEventsStatusIn db [eventId] newStatus, true)
    else (db, false)

/-- `deleteEvent` (Dashboard) combined with the schema's
`ON DELETE CASCADE` on both foreign keys of `swap_requests`: deleting an
event also deletes every swap request referencing it. -/
def deleteEvent (db : DBState) (eventId : String) (ok : Bool) : DBState × Bool :=
  if ok then
    ({ events := db.events.filter fun e => e.id ≠ eventId,
       swap_requests := db.swap_requests.filter fun r =>
         r.requester_event_id ≠ eventId ∧ r.recipient_event_id ≠ eventId }, true)
  else (db, false)

/-- `requestSwap` (Marketplace) — the Propose operation.  Inserts a
`'PENDING'` swap request between the caller's event `myEventId` and the
selected slot, then updates both events to `'SWAP_PENDING'`.  The insert
respects the schema's foreign keys (both referenced events must exist);
`ok1` is the infrastructure outcome of the insert and `ok2` of the update.
On insert failure the handler returns before touching the events.
No event status is checked anywhere. -/
def requestSwap (db : DBState) (userId myEventId : String) (selectedSlot : EventRow)
    (newId : String) (ok1 ok2 : Bool) : DBState × Bool :=
  if ok1 ∧ eventExists db myEventId ∧ eventExists db selectedSlot.id then
    let req : SwapRequestRow :=
      { id := newId, requester_id := userId, requester_event_id := myEventId,
        recipient_id := selectedSlot.user_id, recipient_event_id := selectedSlot.id,
        status := "PENDING" }
    let db1 : DBState := { db with swap_requests := db.swap_requests ++ [req] }
    if ok2 then (updateEventsStatusIn db1 [myEventId, selectedSlot.id] "SWAP_PENDING", true)
    else (db1, false)
  else (db, false)

/-- `handleAcceptSwap` (Requests): sets the request's status to
`'ACCEPTED'`; on failure of that first write it returns at once.  It then
issues two independent event writes: the requester's event gets
`user_id := recipient_id, status := 'BUSY'` and the recipient's event gets
`user_id := requester_id, status := 'BUSY'`.  `ok1`, `ok2`, `ok3` are the
outcomes of the three writes; a failed event write changes nothing but the
other one is still issued, as in the source. -/
def handleAcceptSwap (db : DBState) (request : SwapRequestRow) (ok1 ok2 ok3 : Bool) :
    DBState × Bool :=
  if ok1 then
    let db1 := updateRequestStatus db request.id "ACCEPTED"
    let db2 := if ok2 then
        updateEventOwnerStatus db1 request.requester_event_id request.recipient_id "BUSY"
      else db1
    let db3 := if ok3 then
        updateEventOwnerStatus db2 request.recipient_event_id request.requester_id "BUSY"
      else db2
    (db3, ok2 && ok3)
  else (db, false)

/-- `handleRejectSwap` (Requests): sets the request's status to
`'REJECTED'`; on failure of that first write it returns at once.  It then
sets both referenced events' status back to `'SWAPPABLE'` in one write
(`ok2`), leaving `user_id` untouched. -/
def handleRejectSwap (db : DBState) (request : SwapRequestRow) (ok1 ok2 : Bool) :
    DBState × Bool :=
  if ok1 then
    let db1 := updateRequestStatus db request.id "REJECTED"
    let db2 := if ok2 then
        updateEventsStatusIn db1 [request.requester_event_id, request.recipient_event_id]
          "SWAPPABLE"
      else db1
    (db2, ok2)
  else (db, false)

/-- The status values the `events` CHECK constraint admits. -/
def validEventStatus (s : String) : Prop :=
  s = "BUSY" ∨ s = "SWAPPABLE" ∨ s = "SWAP_PENDING"

instance (s : String) : Decidable (validEventStatus s) := by
  unfold validEventStatus; infer_instance

/-- States reachable from the empty store by any sequence of the six
operations, with arbitrary arguments and arbitrary write outcomes. -/
inductive Reachable : DBState → Prop
  | init : Reachable DBState.init
  | create (db : DBState) (userId title startTime endTime newId : String) (ok : Bool) :
      Reachable db → Reachable (handleCreateEvent db userId title startTime endTime newId ok).1
  | toggle (db : DBState) (eventId currentStatus : String) (ok : Bool) :
      Reachable db → Reachable (toggleSwappable db eventId currentStatus ok).1
  | delete (db : DBState) (eventId : String) (ok : Bool) :
      Reachable db → Reachable (deleteEvent db eventId ok).1
  | propose (db : DBState) (userId myEventId : String) (selectedSlot : EventRow)
      (newId : String) (ok1 ok2 : Bool) :
      Reachable db → Reachable (requestSwap db userId myEventId selectedSlot newId ok1 ok2).1
  | accept (db : DBState) (request : SwapRequestRow) (ok1 ok2 ok3 : Bool) :
      Reachable db → Reachable (handleAcceptSwap db request ok1 ok2 ok3).1
  | reject (db : DBState) (request : SwapRequestRow) (ok1 ok2 : Bool) :
      Reachable db → Reachable (handleRejectSwap db request ok1 ok2).1

/-! ## Concrete scenario states

A two-user run of the application, built by the operations themselves:
Alice and Bob each create an event, both toggle them SWAPPABLE, and Alice
proposes a swap of hers for Bob's. -/

/-- After Alice creates event `e1` (status BUSY). -/
def dbW1 : DBState :=
  (handleCreateEvent DBState.init "alice" "Standup" "2024-06-03T09:00" "2024-06-03T10:00"
    "e1" true).1

/-- After Bob creates event `e2` (status BUSY). -/
def dbW2 : DBState :=
  (handleCreateEvent dbW1 "bob" "Review" "2024-06-04T09:00" "2024-06-04T10:00" "e2" true).1

/-- After Alice toggles `e1` to SWAPPABLE. -/
def dbW3 : DBState := (toggleSwappable dbW2 "e1" "BUSY" true).1

/-- After Bob toggles `e2` to SWAPPABLE. -/
def dbW4 : DBState := (toggleSwappable dbW3 "e2" "BUSY" true).1

/-- Bob's marketplace slot as Alice's browser sees it at `dbW4`. -/
def slotW : EventRow :=
  { id := "e2", user_id := "bob", title := "Review", start_time := "2024-06-04T09:00",
    end_time := "2024-06-04T10:00", status := "SWAPPABLE" }

/-- Alice's own offered slot at `dbW4`. -/
def offerW : EventRow :=
  { id := "e1", user_id := "alice", title := "Standup", start_time := "2024-06-03T09:00",
    end_time := "2024-06-03T10:00", status := "SWAPPABLE" }

/-- Alice's event as it sits in `dbW2`, before the toggles. -/
def busyW : EventRow :=
  { id := "e1", user_id := "alice", title := "Standup", start_time := "2024-06-03T09:00",
    end_time := "2024-06-03T10:00", status := "BUSY" }

/-- After Alice proposes swapping `e1` for `e2` (request `r1` PENDING,
both events SWAP_PENDING). -/
def dbW5 : DBState := (requestSwap dbW4 "alice" "e1" slotW "r1" true true).1

/-- The swap request row created by the propose above. -/
def reqW : SwapRequestRow :=
  { id := "r1", requester_id := "alice", requester_event_id := "e1",
    recipient_id := "bob", recipient_event_id := "e2", status := "PENDING" }

/-- After Bob rejects request `r1`: the request is REJECTED and both
events are SWAPPABLE again. -/
def dbW6r : DBState := (handleRejectSwap dbW5 reqW true true).1

/-- The rejected request row as it sits in `dbW6r`. -/
def reqWrej : SwapRequestRow := { reqW with status := "REJECTED" }

/-- Marketplace conflict scenario: Alice's event is SWAPPABLE but Bob's is
BUSY, i.e. not offered for exchange. -/
def eBobBusy : EventRow :=
  { id := "e2", user_id := "bob", title := "Review", start_time := "2024-06-04T09:00",
    end_time := "2024-06-04T10:00", status := "BUSY" }

/-- Store holding Alice's SWAPPABLE event and Bob's BUSY event. -/
def dbConflict : DBState := { events := [offerW, eBobBusy], swap_requests := [] }

/-! ## Unfolding lemmas for the all-writes-succeed paths -/

theorem handleAcceptSwap_ok (db : DBState) (r : SwapRequestRow) :
    handleAcceptSwap db r true true true =
      (updateEventOwnerStatus
        (updateEventOwnerStatus (updateRequestStatus db r.id "ACCEPTED")
          r.requester_event_id r.recipient_id "BUSY")
        r.recipient_event_id r.requester_id "BUSY", true) := rfl

theorem handleRejectSwap_ok (db : DBState) (r : SwapRequestRow) :
    handleRejectSwap db r true true =
      (updateEventsStatusIn (updateRequestStatus db r.id "REJECTED")
        [r.requester_event_id, r.recipient_event_id] "SWAPPABLE", true) := rfl

/-! ## C10 -/

/-- C10: if the initial request-status write of Accept or Reject fails, the
handler stops at once and the store is unchanged. -/
theorem first_write_fails_leaves_state (db : DBState) (r : SwapRequestRow) (ok2 ok3 : Bool) :
    handleAcceptSwap db r false ok2 ok3 = (db, false)
    ∧ handleRejectSwap db r false ok2 = (db, false) := by
  constructor <;> simp [handleAcceptSwap, handleRejectSwap]

/-! ## C1 -/

/-- C1: accepting a PENDING swap request marks it ACCEPTED, hands the
requester's event to the recipient, hands the recipient's event to the
requester, and sets both events' status to BUSY. -/
theorem accept_pending_swaps_ownership (db : DBState) (r : SwapRequestRow)
    (hr : r ∈ db.swap_requests) (hst : r.status = "PENDING")
    (hne : r.requester_event_id ≠ r.recipient_event_id) :
    (∀ q ∈ (handleAcceptSwap db r true true true).1.swap_requests,
        q.id = r.id → q.status = "ACCEPTED")
    ∧ (∀ e ∈ (handleAcceptSwap db r true true true).1.events,
        e.id = r.requester_event_id → e.user_id = r.recipient_id ∧ e.status = "BUSY")
    ∧ (∀ e ∈ (handleAcceptSwap db r true true true).1.events,
        e.id = r.recipient_event_id → e.user_id = r.requester_id ∧ e.status = "BUSY") := by
  rw [handleAcceptSwap_ok]
  refine ⟨?_, ?_, ?_⟩
  · intro q hq hid
    simp only [updateEventOwnerStatus, updateRequestStatus, List.mem_map] at hq
    obtain ⟨q0, _, rfl⟩ := hq
    by_cases h : q0.id = r.id <;> simp_all
  · intro e he hid
    simp only [updateEventOwnerStatus, updateRequestStatus, List.map_map, List.mem_map] at he
    obtain ⟨e0, _, rfl⟩ := he
    by_cases h1 : e0.id = r.requester_event_id <;>
      by_cases h2 : e0.id = r.recipient_event_id <;> simp_all
  · intro e he hid
    simp only [updateEventOwnerStatus, updateRequestStatus, List.map_map, List.mem_map] at he
    obtain ⟨e0, _, rfl⟩ := he
    by_cases h1 : e0.id = r.requester_event_id <;>
      by_cases h2 : e0.id = r.recipient_event_id <;> simp_all

/-! ## C4 -/

/-- C4: rejecting a PENDING swap request marks it REJECTED, sets both
referenced events back to SWAPPABLE, and changes no event's owning user. -/
theorem reject_pending_reverts (db : DBState) (r : SwapRequestRow)
    (hr : r ∈ db.swap_requests) (hst : r.status = "PENDING") :
    (∀ q ∈ (handleRejectSwap db r true true).1.swap_requests,
        q.id = r.id → q.status = "REJECTED")
    ∧ (∀ e ∈ (handleRejectSwap db r true true).1.events,
        e.id = r.requester_event_id ∨ e.id = r.recipient_event_id →
          e.status = "SWAPPABLE" ∧ e.status ≠ "BUSY")
    ∧ (handleRejectSwap db r true true).1.events.map (fun e => (e.id, e.user_id))
        = db.events.map (fun e => (e.id, e.user_id)) := by
  rw [handleRejectSwap_ok]
  refine ⟨?_, ?_, ?_⟩
  · intro q hq hid
    simp only [updateEventsStatusIn, updateRequestStatus, List.mem_map] at hq
    obtain ⟨q0, _, rfl⟩ := hq
    by_cases h : q0.id = r.id <;> simp_all
  · intro e he hid
    simp only [updateEventsStatusIn, updateRequestStatus, List.mem_map] at he
    obtain ⟨e0, _, rfl⟩ := he
    rcases hid with h | h <;>
      by_cases hm : e0.id ∈ [r.requester_event_id, r.recipient_event_id] <;> simp_all
  · simp only [updateEventsStatusIn, updateRequestStatus, List.map_map]
    refine List.map_congr_left fun e _ => ?_
    by_cases hm : e.id ∈ [r.requester_event_id, r.recipient_event_id] <;> simp_all

/-! ## C6 -/

/-- C6: the toggle is refused (error, store unchanged) exactly when the
event's status is SWAP_PENDING; otherwise it succeeds and flips the status
between BUSY and SWAPPABLE. -/
theorem toggle_blocked_iff_swap_pending (db : DBState) (e : EventRow)
    (he : e ∈ db.events) (ok : Bool) :
    (e.status = "SWAP_PENDING" → toggleSwappable db e.id e.status ok = (db, false))
    ∧ (e.status = "BUSY" →
        (toggleSwappable db e.id e.status true).2 = true ∧
        ∀ e' ∈ (toggleSwappable db e.id e.status true).1.events,
          e'.id = e.id → e'.status = "SWAPPABLE")
    ∧ (e.status = "SWAPPABLE" →
        (toggleSwappable db e.id e.status true).2 = true ∧
        ∀ e' ∈ (toggleSwappable db e.id e.status true).1.events,
          e'.id = e.id → e'.status = "BUSY") := by
  refine ⟨?_, ?_, ?_⟩
  · intro h
    simp [toggleSwappable, h]
  · intro h
    refine ⟨by simp [toggleSwappable, h], ?_⟩
    intro e' he' hid
    simp [toggleSwappable, h, updateEventsStatusIn, List.mem_map] at he'
    obtain ⟨e0, _, rfl⟩ := he'
    by_cases hm : e0.id = e.id <;> simp_all
  · intro h
    refine ⟨by simp [toggleSwappable, h], ?_⟩
    intro e' he' hid
    simp [toggleSwappable, h, updateEventsStatusIn, List.mem_map] at he'
    obtain ⟨e0, _, rfl⟩ := he'
    by_cases hm : e0.id = e.id <;> simp_all

/-! ## C3 -/

theorem eventExists_of_mem (db : DBState) (e : EventRow) (he : e ∈ db.events) :
    eventExists db e.id = true := by
  simp only [eventExists, List.any_eq_true, decide_eq_true_eq]
  exact ⟨e, he, rfl⟩

/-- C3: proposing a swap between two SWAPPABLE events of two distinct
users succeeds, appends exactly one new PENDING request referencing the
pair, and sets both events' status to SWAP_PENDING. -/
theorem propose_swappable_creates_pending (db : DBState) (a b : EventRow)
    (ha : a ∈ db.events) (hb : b ∈ db.events)
    (hsa : a.status = "SWAPPABLE") (hsb : b.status = "SWAPPABLE")
    (howner : a.user_id ≠ b.user_id) (newId : String) :
    (requestSwap db a.user_id a.id b newId true true).2 = true
    ∧ (requestSwap db a.user_id a.id b newId true true).1.swap_requests
        = db.swap_requests ++
          [{ id := newId, requester_id := a.user_id, requester_event_id := a.id,
             recipient_id := b.user_id, recipient_event_id := b.id, status := "PENDING" }]
    ∧ (∀ e ∈ (requestSwap db a.user_id a.id b newId true true).1.events,
        e.id = a.id ∨ e.id = b.id → e.status = "SWAP_PENDING") := by
  have hea : eventExists db a.id = true := eventExists_of_mem db a ha
  have heb : eventExists db b.id = true := eventExists_of_mem db b hb
  refine ⟨?_, ?_, ?_⟩
  · simp [requestSwap, hea, heb]
  · simp [requestSwap, hea, heb, updateEventsStatusIn]
  · intro e he hid
    simp [requestSwap, hea, heb, updateEventsStatusIn, List.mem_map] at he
    obtain ⟨e0, _, rfl⟩ := he
    rcases hid with h | h <;>
      by_cases h1 : e0.id = a.id <;> by_cases h2 : e0.id = b.id <;> simp_all

/-! ## C2 -/

/-- C2: the code does not re-check event statuses when a swap is proposed.
At `dbConflict` Bob's event is BUSY, yet `requestSwap` succeeds, creates a
PENDING request for the pair, and moves both events to SWAP_PENDING —
instead of failing with a conflict and leaving the store untouched. -/
theorem propose_ignores_status_conflict :
    eBobBusy.status ≠ "SWAPPABLE"
    ∧ (requestSwap dbConflict "alice" "e1" eBobBusy "r1" true true).2 = true
    ∧ (requestSwap dbConflict "alice" "e1" eBobBusy "r1" true true).1.swap_requests
        = [{ id := "r1", requester_id := "alice", requester_event_id := "e1",
             recipient_id := "bob", recipient_event_id := "e2", status := "PENDING" }]
    ∧ (∀ e ∈ (requestSwap dbConflict "alice" "e1" eBobBusy "r1" true true).1.events,
        e.status = "SWAP_PENDING") := by
  decide

/-! ## C9 -/

/-- C9: event creation performs no time validation.  An event whose end
time precedes its start time is accepted into the store unchanged. -/
theorem create_event_skips_time_validation :
    (handleCreateEvent DBState.init "alice" "Meeting" "2024-06-02T10:00" "2024-06-01T09:00"
        "e1" true).2 = true
    ∧ (∀ e ∈ (handleCreateEvent DBState.init "alice" "Meeting" "2024-06-02T10:00"
          "2024-06-01T09:00" "e1" true).1.events,
        e.end_time < e.start_time ∧ ¬ e.start_time < e.end_time) := by
  refine ⟨rfl, ?_⟩
  intro e he
  simp [handleCreateEvent, DBState.init] at he
  subst he
  refine ⟨?_, ?_⟩
  · rw [String.lt_iff_toList_lt]
    decide
  · rw [String.lt_iff_toList_lt]
    decide

/-! ## C5 -/

theorem DBState.ext' {a b : DBState} (h1 : a.events = b.events)
    (h2 : a.swap_requests = b.swap_requests) : a = b := by
  cases a; cases b; simp_all

/-- Counterexample to C5 as stated: a REJECTED request can still be
accepted, and doing so is neither a failure nor a no-op — the request is
re-marked ACCEPTED and the ownership swap is performed. -/
theorem accept_after_reject_mutates :
    reqWrej ∈ dbW6r.swap_requests ∧ reqWrej.status ≠ "PENDING"
    ∧ (handleAcceptSwap dbW6r reqWrej true true true).2 = true
    ∧ (handleAcceptSwap dbW6r reqWrej true true true).1 ≠ dbW6r := by
  decide

/-- C5 (amended): a second Accept of the same request is an idempotent
no-op — it reports success and returns exactly the state the first Accept
produced, so the ownership swap is never applied twice. -/
theorem accept_idempotent (db : DBState) (r : SwapRequestRow) :
    handleAcceptSwap (handleAcceptSwap db r true true true).1 r true true true
      = ((handleAcceptSwap db r true true true).1, true) := by
  rw [handleAcceptSwap_ok, handleAcceptSwap_ok, Prod.mk.injEq]
  refine ⟨DBState.ext' ?_ ?_, rfl⟩
  · simp only [updateEventOwnerStatus, updateRequestStatus, List.map_map]
    refine List.map_congr_left fun e _ => ?_
    by_cases hab : r.requester_event_id = r.recipient_event_id <;>
      by_cases h1 : e.id = r.requester_event_id <;>
        by_cases h2 : e.id = r.recipient_event_id <;>
          simp_all [Function.comp]
  · simp only [updateEventOwnerStatus, updateRequestStatus, List.map_map]
    refine List.map_congr_left fun q _ => ?_
    by_cases h : q.id = r.id <;> simp_all [Function.comp]

/-! ## C8: status validity is preserved by every operation -/

theorem validEventStatus_update_in (db : DBState) (ids : List String) (s : String)
    (hs : validEventStatus s) (ih : ∀ e ∈ db.events, validEventStatus e.status) :
    ∀ e ∈ (updateEventsStatusIn db ids s).events, validEventStatus e.status := by
  intro e he
  simp only [updateEventsStatusIn, List.mem_map] at he
  obtain ⟨e0, h0, rfl⟩ := he
  by_cases hm : e0.id ∈ ids
  · simpa [hm] using hs
  · simpa [hm] using ih e0 h0

theorem validEventStatus_update_owner (db : DBState) (eid u s : String)
    (hs : validEventStatus s) (ih : ∀ e ∈ db.events, validEventStatus e.status) :
    ∀ e ∈ (updateEventOwnerStatus db eid u s).events, validEventStatus e.status := by
  intro e he
  simp only [updateEventOwnerStatus, List.mem_map] at he
  obtain ⟨e0, h0, rfl⟩ := he
  by_cases hm : e0.id = eid
  · simpa [hm] using hs
  · simpa [hm] using ih e0 h0

theorem validEventStatus_create (db : DBState) (userId title st et nid : String) (ok : Bool)
    (ih : ∀ e ∈ db.events, validEventStatus e.status) :
    ∀ e ∈ (handleCreateEvent db userId title st et nid ok).1.events,
      validEventStatus e.status := by
  cases ok with
  | false => simpa [handleCreateEvent] using ih
  | true =>
      intro e he
      simp [handleCreateEvent] at he
      rcases he with he | he
      · exact ih e he
      · subst he; simp [validEventStatus]

theorem validEventStatus_toggle (db : DBState) (eid cur : String) (ok : Bool)
    (ih : ∀ e ∈ db.events, validEventStatus e.status) :
    ∀ e ∈ (toggleSwappable db eid cur ok).1.events, validEventStatus e.status := by
  by_cases hc : cur = "SWAP_PENDING"
  · simpa [toggleSwappable, hc] using ih
  · cases ok with
    | false => simpa [toggleSwappable, hc] using ih
    | true =>
        have hs : validEventStatus (if cur = "BUSY" then "SWAPPABLE" else "BUSY") := by
          by_cases hb : cur = "BUSY" <;> simp [hb, validEventStatus]
        simpa [toggleSwappable, hc] using
          validEventStatus_update_in db [eid] (if cur = "BUSY" then "SWAPPABLE" else "BUSY")
            hs ih

theorem validEventStatus_delete (db : DBState) (eid : String) (ok : Bool)
    (ih : ∀ e ∈ db.events, validEventStatus e.status) :
    ∀ e ∈ (deleteEvent db eid ok).1.events, validEventStatus e.status := by
  cases ok with
  | false => simpa [deleteEvent] using ih
  | true =>
      intro e he
      simp only [deleteEvent, if_true] at he
      simp only [List.mem_filter] at he
      exact ih e he.1

theorem validEventStatus_propose (db : DBState) (userId myEventId : String)
    (slot : EventRow) (newId : String) (ok1 ok2 : Bool)
    (ih : ∀ e ∈ db.events, validEventStatus e.status) :
    ∀ e ∈ (requestSwap db userId myEventId slot newId ok1 ok2).1.events,
      validEventStatus e.status := by
  by_cases hcond : ok1 = true ∧ eventExists db myEventId = true
      ∧ eventExists db slot.id = true
  · obtain ⟨hok, hm, hs⟩ := hcond
    subst hok
    cases ok2 with
    | false => simpa [requestSwap, hm, hs] using ih
    | true =>
        have h := validEventStatus_update_in
          { db with swap_requests := db.swap_requests ++
              [{ id := newId, requester_id := userId, requester_event_id := myEventId,
                 recipient_id := slot.user_id, recipient_event_id := slot.id,
                 status := "PENDING" }] }
          [myEventId, slot.id] "SWAP_PENDING" (by simp [validEventStatus]) ih
        simpa [requestSwap, hm, hs] using h
  · simpa [requestSwap, hcond] using ih

theorem validEventStatus_accept (db : DBState) (r : SwapRequestRow) (ok1 ok2 ok3 : Bool)
    (ih : ∀ e ∈ db.events, validEventStatus e.status) :
    ∀ e ∈ (handleAcceptSwap db r ok1 ok2 ok3).1.events, validEventStatus e.status := by
  cases ok1 with
  | false => simpa [handleAcceptSwap] using ih
  | true =>
      have h1 : ∀ e ∈ (updateRequestStatus db r.id "ACCEPTED").events,
          validEventStatus e.status := ih
      cases ok2 with
      | false =>
          cases ok3 with
          | false => simpa [handleAcceptSwap] using h1
          | true =>
              simpa [handleAcceptSwap] using
                validEventStatus_update_owner (updateRequestStatus db r.id "ACCEPTED")
                  r.recipient_event_id r.requester_id "BUSY" (by simp [validEventStatus]) h1
      | true =>
          have h2 := validEventStatus_update_owner (updateRequestStatus db r.id "ACCEPTED")
            r.requester_event_id r.recipient_id "BUSY" (by simp [validEventStatus]) h1
          cases ok3 with
          | false => simpa [handleAcceptSwap] using h2
          | true =>
              simpa [handleAcceptSwap] using
                validEventStatus_update_owner
                  (updateEventOwnerStatus (updateRequestStatus db r.id "ACCEPTED")
                    r.requester_event_id r.recipient_id "BUSY")
                  r.recipient_event_id r.requester_id "BUSY" (by simp [validEventStatus]) h2

theorem validEventStatus_reject (db : DBState) (r : SwapRequestRow) (ok1 ok2 : Bool)
    (ih : ∀ e ∈ db.events, validEventStatus e.status) :
    ∀ e ∈ (handleRejectSwap db r ok1 ok2).1.events, validEventStatus e.status := by
  cases ok1 with
  | false => simpa [handleRejectSwap] using ih
  | true =>
      have h1 : ∀ e ∈ (updateRequestStatus db r.id "REJECTED").events,
          validEventStatus e.status := ih
      cases ok2 with
      | false => simpa [handleRejectSwap] using h1
      | true =>
          simpa [handleRejectSwap] using
            validEventStatus_update_in (updateRequestStatus db r.id "REJECTED")
              [r.requester_event_id, r.recipient_event_id] "SWAPPABLE"
              (by simp [validEventStatus]) h1

/-- C8: in every state reachable by any sequence of the six operations,
every event's status is `BUSY`, `SWAPPABLE` or `SWAP_PENDING`; no other
value is ever written. -/
theorem event_status_always_valid (db : DBState) (h : Reachable db) :
    ∀ e ∈ db.events, validEventStatus e.status := by
  induction h with
  | init => intro e he; simp [DBState.init] at he
  | create db0 userId title st et nid ok hR ih =>
      exact validEventStatus_create db0 userId title st et nid ok ih
  | toggle db0 eid cur ok hR ih => exact validEventStatus_toggle db0 eid cur ok ih
  | delete db0 eid ok hR ih => exact validEventStatus_delete db0 eid ok ih
  | propose db0 u m slot nid ok1 ok2 hR ih =>
      exact validEventStatus_propose db0 u m slot nid ok1 ok2 ih
  | accept db0 r ok1 ok2 ok3 hR ih => exact validEventStatus_accept db0 r ok1 ok2 ok3 ih
  | reject db0 r ok1 ok2 hR ih => exact validEventStatus_reject db0 r ok1 ok2 ih

/-! ## C7: the cascade keeps swap requests from dangling -/

theorem eventExists_update_in (db : DBState) (ids : List String) (s x : String) :
    eventExists (updateEventsStatusIn db ids s) x = eventExists db x := by
  rcases db with ⟨evs, reqs⟩
  simp only [eventExists, updateEventsStatusIn]
  induction evs with
  | nil => rfl
  | cons a l ihl =>
      simp only [List.map_cons, List.any_cons, ihl]
      by_cases hm : a.id ∈ ids <;> simp [hm]

theorem eventExists_update_owner (db : DBState) (eid u s x : String) :
    eventExists (updateEventOwnerStatus db eid u s) x = eventExists db x := by
  rcases db with ⟨evs, reqs⟩
  simp only [eventExists, updateEventOwnerStatus]
  induction evs with
  | nil => rfl
  | cons a l ihl =>
      simp only [List.map_cons, List.any_cons, ihl]
      by_cases hm : a.id = eid <;> simp [hm]

theorem eventExists_create (db : DBState) (userId title st et nid : String) (ok : Bool)
    (x : String) (h : eventExists db x = true) :
    eventExists (handleCreateEvent db userId title st et nid ok).1 x = true := by
  cases ok with
  | false => simpa [handleCreateEvent] using h
  | true =>
      simp only [eventExists, List.any_eq_true, decide_eq_true_eq] at h ⊢
      obtain ⟨e, he, hid⟩ := h
      exact ⟨e, by simp [handleCreateEvent, he], hid⟩

theorem eventExists_updateRequestStatus (db : DBState) (rid s x : String) :
    eventExists (updateRequestStatus db rid s) x = eventExists db x := rfl

theorem requestWrite_refs (q : SwapRequestRow) (rid s : String) :
    (if q.id = rid then { q with status := s } else q).requester_event_id
        = q.requester_event_id
    ∧ (if q.id = rid then { q with status := s } else q).recipient_event_id
        = q.recipient_event_id := by
  by_cases h : q.id = rid <;> simp [h]

theorem eventExists_delete_ne (db : DBState) (eid x : String) (hx : x ≠ eid)
    (h : eventExists db x = true) :
    eventExists (deleteEvent db eid true).1 x = true := by
  simp only [eventExists, List.any_eq_true, decide_eq_true_eq] at h ⊢
  obtain ⟨e, he, hid⟩ := h
  refine ⟨e, ?_, hid⟩
  simp only [deleteEvent, if_true]
  exact List.mem_filter.mpr ⟨he, by simp [hid, hx]⟩

/-- In every reachable state, every swap request — whatever its status —
references two events that are present in the event store. -/
theorem requests_reference_existing (db : DBState) (h : Reachable db) :
    ∀ r ∈ db.swap_requests,
      eventExists db r.requester_event_id = true
      ∧ eventExists db r.recipient_event_id = true := by
  induction h with
  | init => intro r hr; simp [DBState.init] at hr
  | create db0 userId title st et nid ok hR ih =>
      intro r hr
      have hr0 : r ∈ db0.swap_requests := by
        cases ok <;> simpa [handleCreateEvent] using hr
      obtain ⟨h1, h2⟩ := ih r hr0
      exact ⟨eventExists_create db0 userId title st et nid ok _ h1,
        eventExists_create db0 userId title st et nid ok _ h2⟩
  | toggle db0 eid cur ok hR ih =>
      have hreq : (toggleSwappable db0 eid cur ok).1.swap_requests = db0.swap_requests := by
        by_cases hc : cur = "SWAP_PENDING"
        · simp [toggleSwappable, hc]
        · cases ok <;> simp [toggleSwappable, hc, updateEventsStatusIn]
      have hstep : ∀ x, eventExists (toggleSwappable db0 eid cur ok).1 x
          = eventExists db0 x := by
        intro x
        by_cases hc : cur = "SWAP_PENDING"
        · simp [toggleSwappable, hc]
        · cases ok <;> simp [toggleSwappable, hc, eventExists_update_in]
      intro r hr
      rw [hreq] at hr
      rw [hstep, hstep]
      exact ih r hr
  | delete db0 eid ok hR ih =>
      cases ok with
      | false =>
          intro r hr
          simpa [deleteEvent] using ih r (by simpa [deleteEvent] using hr)
      | true =>
          intro r hr
          simp only [deleteEvent, if_true, List.mem_filter, decide_eq_true_eq] at hr
          obtain ⟨hr0, hne⟩ := hr
          obtain ⟨h1, h2⟩ := ih r hr0
          exact ⟨eventExists_delete_ne db0 eid _ hne.1 h1,
            eventExists_delete_ne db0 eid _ hne.2 h2⟩
  | propose db0 u m slot nid ok1 ok2 hR ih =>
      by_cases hcond : ok1 = true ∧ eventExists db0 m = true
          ∧ eventExists db0 slot.id = true
      · obtain ⟨hok, hm, hs⟩ := hcond
        subst hok
        cases ok2 with
        | false =>
            have hstate : (requestSwap db0 u m slot nid true false).1
                = { db0 with swap_requests := db0.swap_requests ++
                    [⟨nid, u, m, slot.user_id, slot.id, "PENDING"⟩] } := by
              simp [requestSwap, hm, hs]
            intro r hr
            rw [hstate] at hr ⊢
            simp only [List.mem_append, List.mem_singleton] at hr
            rcases hr with hr0 | rfl
            · exact ih r hr0
            · exact ⟨hm, hs⟩
        | true =>
            have hstate : (requestSwap db0 u m slot nid true true).1
                = updateEventsStatusIn
                    { db0 with swap_requests := db0.swap_requests ++
                        [⟨nid, u, m, slot.user_id, slot.id, "PENDING"⟩] }
                    [m, slot.id] "SWAP_PENDING" := by
              simp [requestSwap, hm, hs]
            intro r hr
            rw [hstate] at hr ⊢
            rw [eventExists_update_in, eventExists_update_in]
            have hr' : r ∈ db0.swap_requests ++
                [(⟨nid, u, m, slot.user_id, slot.id, "PENDING"⟩ : SwapRequestRow)] := hr
            simp only [List.mem_append, List.mem_singleton] at hr'
            rcases hr' with hr0 | rfl
            · exact ih r hr0
            · exact ⟨hm, hs⟩
      · intro r hr
        rw [show (requestSwap db0 u m slot nid ok1 ok2).1 = db0 by
          simp [requestSwap, hcond]] at hr ⊢
        exact ih r hr
  | accept db0 r0 ok1 ok2 ok3 hR ih =>
      cases ok1 with
      | false =>
          intro r hr
          simpa [handleAcceptSwap] using ih r (by simpa [handleAcceptSwap] using hr)
      | true =>
          have hstep : ∀ x, eventExists (handleAcceptSwap db0 r0 true ok2 ok3).1 x
              = eventExists db0 x := by
            intro x
            cases ok2 <;> cases ok3
            · exact eventExists_updateRequestStatus db0 r0.id "ACCEPTED" x
            · rw [show (handleAcceptSwap db0 r0 true false true).1
                  = updateEventOwnerStatus (updateRequestStatus db0 r0.id "ACCEPTED")
                      r0.recipient_event_id r0.requester_id "BUSY" from rfl,
                eventExists_update_owner]
              exact eventExists_updateRequestStatus db0 r0.id "ACCEPTED" x
            · rw [show (handleAcceptSwap db0 r0 true true false).1
                  = updateEventOwnerStatus (updateRequestStatus db0 r0.id "ACCEPTED")
                      r0.requester_event_id r0.recipient_id "BUSY" from rfl,
                eventExists_update_owner]
              exact eventExists_updateRequestStatus db0 r0.id "ACCEPTED" x
            · rw [show (handleAcceptSwap db0 r0 true true true).1
                  = updateEventOwnerStatus
                      (updateEventOwnerStatus (updateRequestStatus db0 r0.id "ACCEPTED")
                        r0.requester_event_id r0.recipient_id "BUSY")
                      r0.recipient_event_id r0.requester_id "BUSY" from rfl,
                eventExists_update_owner, eventExists_update_owner]
              exact eventExists_updateRequestStatus db0 r0.id "ACCEPTED" x
          intro r hr
          have hr' : r ∈ db0.swap_requests.map (fun q =>
              if q.id = r0.id then { q with status := "ACCEPTED" } else q) := by
            cases ok2 <;> cases ok3 <;> exact hr
          rw [hstep, hstep]
          obtain ⟨q0, hq0, rfl⟩ := List.mem_map.mp hr'
          obtain ⟨hre, hce⟩ := requestWrite_refs q0 r0.id "ACCEPTED"
          rw [hre, hce]
          exact ih q0 hq0
  | reject db0 r0 ok1 ok2 hR ih =>
      cases ok1 with
      | false =>
          intro r hr
          simpa [handleRejectSwap] using ih r (by simpa [handleRejectSwap] using hr)
      | true =>
          have hstep : ∀ x, eventExists (handleRejectSwap db0 r0 true ok2).1 x
              = eventExists db0 x := by
            intro x
            cases ok2
            · exact eventExists_updateRequestStatus db0 r0.id "REJECTED" x
            · rw [show (handleRejectSwap db0 r0 true true).1
                  = updateEventsStatusIn (updateRequestStatus db0 r0.id "REJECTED")
                      [r0.requester_event_id, r0.recipient_event_id] "SWAPPABLE" from rfl,
                eventExists_update_in]
              exact eventExists_updateRequestStatus db0 r0.id "REJECTED" x
          intro r hr
          have hr' : r ∈ db0.swap_requests.map (fun q =>
              if q.id = r0.id then { q with status := "REJECTED" } else q) := by
            cases ok2 <;> exact hr
          rw [hstep, hstep]
          obtain ⟨q0, hq0, rfl⟩ := List.mem_map.mp hr'
          obtain ⟨hre, hce⟩ := requestWrite_refs q0 r0.id "REJECTED"
          rw [hre, hce]
          exact ih q0 hq0

/-- Counterexample to C7 as stated: at `dbW5` the PENDING request `r1`
references event `e1`; deleting `e1` is not disallowed (the delete
succeeds), and the request is not resolved to any terminal state — the
cascade removes it from the store entirely. -/
theorem delete_pending_request_vanishes :
    reqW ∈ dbW5.swap_requests ∧ reqW.status = "PENDING"
    ∧ reqW.requester_event_id = "e1"
    ∧ (deleteEvent dbW5 "e1" true).2 = true
    ∧ (deleteEvent dbW5 "e1" true).1.swap_requests = [] := by
  decide

/-- C7 (amended): deleting an event is always allowed; the schema's
cascade deletes every swap request referencing it (so no such request can
later be ACCEPTED), and in every reachable state every swap request — in
particular every PENDING one — references events that exist in the store. -/
theorem delete_cascades_no_dangling (db : DBState) (h : Reachable db) (eid : String) :
    (∀ r ∈ (deleteEvent db eid true).1.swap_requests,
        r.requester_event_id ≠ eid ∧ r.recipient_event_id ≠ eid)
    ∧ (∀ r ∈ db.swap_requests, r.status = "PENDING" →
        eventExists db r.requester_event_id = true
        ∧ eventExists db r.recipient_event_id = true) := by
  constructor
  · intro r hr
    simp only [deleteEvent, if_true, List.mem_filter, decide_eq_true_eq] at hr
    exact hr.2
  · intro r hr _
    exact requests_reference_existing db h r hr

/-! ## Reachability of the concrete scenario -/

theorem reachable_dbW5 : Reachable dbW5 := by
  have h1 : Reachable dbW1 := Reachable.create _ _ _ _ _ _ _ Reachable.init
  have h2 : Reachable dbW2 := Reachable.create _ _ _ _ _ _ _ h1
  have h3 : Reachable dbW3 := Reachable.toggle _ _ _ _ h2
  have h4 : Reachable dbW4 := Reachable.toggle _ _ _ _ h3
  exact Reachable.propose _ _ _ _ _ _ _ h4

/-! ## Concrete witnesses -/

theorem accept_pending_swaps_ownership_witness :
    reqW ∈ dbW5.swap_requests ∧ reqW.status = "PENDING"
    ∧ reqW.requester_event_id ≠ reqW.recipient_event_id
    ∧ ((∀ q ∈ (handleAcceptSwap dbW5 reqW true true true).1.swap_requests,
        q.id = reqW.id → q.status = "ACCEPTED")
      ∧ (∀ e ∈ (handleAcceptSwap dbW5 reqW true true true).1.events,
          e.id = reqW.requester_event_id → e.user_id = reqW.recipient_id ∧ e.status = "BUSY")
      ∧ (∀ e ∈ (handleAcceptSwap dbW5 reqW true true true).1.events,
          e.id = reqW.recipient_event_id →
            e.user_id = reqW.requester_id ∧ e.status = "BUSY")) :=
  ⟨by decide, by decide, by decide,
    accept_pending_swaps_ownership dbW5 reqW (by decide) (by decide) (by decide)⟩

theorem reject_pending_reverts_witness :
    reqW ∈ dbW5.swap_requests ∧ reqW.status = "PENDING"
    ∧ ((∀ q ∈ (handleRejectSwap dbW5 reqW true true).1.swap_requests,
        q.id = reqW.id → q.status = "REJECTED")
      ∧ (∀ e ∈ (handleRejectSwap dbW5 reqW true true).1.events,
          e.id = reqW.requester_event_id ∨ e.id = reqW.recipient_event_id →
            e.status = "SWAPPABLE" ∧ e.status ≠ "BUSY")
      ∧ (handleRejectSwap dbW5 reqW true true).1.events.map (fun e => (e.id, e.user_id))
          = dbW5.events.map (fun e => (e.id, e.user_id))) :=
  ⟨by decide, by decide, reject_pending_reverts dbW5 reqW (by decide) (by decide)⟩

theorem propose_swappable_creates_pending_witness :
    offerW ∈ dbW4.events ∧ slotW ∈ dbW4.events
    ∧ offerW.status = "SWAPPABLE" ∧ slotW.status = "SWAPPABLE"
    ∧ offerW.user_id ≠ slotW.user_id
    ∧ ((requestSwap dbW4 offerW.user_id offerW.id slotW "r1" true true).2 = true
      ∧ (requestSwap dbW4 offerW.user_id offerW.id slotW "r1" true true).1.swap_requests
          = dbW4.swap_requests ++
            [{ id := "r1", requester_id := offerW.user_id, requester_event_id := offerW.id,
               recipient_id := slotW.user_id, recipient_event_id := slotW.id,
               status := "PENDING" }]
      ∧ (∀ e ∈ (requestSwap dbW4 offerW.user_id offerW.id slotW "r1" true true).1.events,
          e.id = offerW.id ∨ e.id = slotW.id → e.status = "SWAP_PENDING")) :=
  ⟨by decide, by decide, by decide, by decide, by decide,
    propose_swappable_creates_pending dbW4 offerW slotW (by decide) (by decide)
      (by decide) (by decide) (by decide) "r1"⟩

theorem toggle_blocked_iff_swap_pending_witness :
    busyW ∈ dbW2.events
    ∧ ((busyW.status = "SWAP_PENDING" →
          toggleSwappable dbW2 busyW.id busyW.status true = (dbW2, false))
      ∧ (busyW.status = "BUSY" →
          (toggleSwappable dbW2 busyW.id busyW.status true).2 = true ∧
          ∀ e' ∈ (toggleSwappable dbW2 busyW.id busyW.status true).1.events,
            e'.id = busyW.id → e'.status = "SWAPPABLE")
      ∧ (busyW.status = "SWAPPABLE" →
          (toggleSwappable dbW2 busyW.id busyW.status true).2 = true ∧
          ∀ e' ∈ (toggleSwappable dbW2 busyW.id busyW.status true).1.events,
            e'.id = busyW.id → e'.status = "BUSY")) :=
  ⟨by decide, toggle_blocked_iff_swap_pending dbW2 busyW (by decide) true⟩

theorem delete_cascades_no_dangling_witness :
    (∀ r ∈ (deleteEvent dbW5 "e1" true).1.swap_requests,
        r.requester_event_id ≠ "e1" ∧ r.recipient_event_id ≠ "e1")
    ∧ (∀ r ∈ dbW5.swap_requests, r.status = "PENDING" →
        eventExists dbW5 r.requester_event_id = true
        ∧ eventExists dbW5 r.recipient_event_id = true) :=
  delete_cascades_no_dangling dbW5 reachable_dbW5 "e1"

theorem event_status_always_valid_witness :
    dbW5.events.length = 2 ∧ ∀ e ∈ dbW5.events, validEventStatus e.status :=
  ⟨by decide, event_status_always_valid dbW5 reachable_dbW5⟩

end SlotSwap
